import Mathlib

/-!
# Verification of the mantle-lit core (src/mantle.ts, src/config.ts)

A shallow embedding of the reactive view-model core: the prop bridge
(lazy prop storage, observable materialization), the watch facility,
the lifecycle orchestrator (`connectedCallback` / `disconnectedCallback`,
`_callOnMount` / `_callOnUnmount`), instrumentation (`_initMobX`,
`_makeAutoObservable`, `_collectBehaviors`) and the global error-router
configuration (`configure`, `reportError`).

JavaScript runtime values are modelled by an inductive `JSValue`;
exceptions by `Except`; the mobx external primitives (`reaction`,
`autorun`, `runInAction`, observable containers) by explicit state and
event traces following their documented semantics.
-/

namespace Mantle

/-- A JavaScript runtime value, as far as the embedded code inspects one:
`undefined`, primitive data, a function (with an id for identity and a
flag saying whether calling it throws), a Promise, or a behavior
instance. -/
inductive JSValue where
  | undefined
  | num (n : Int)
  | str (s : String)
  | fn (id : Nat) (throws : Bool)
  | promise (id : Nat)
  | behaviorInst (id : Nat)
  deriving DecidableEq, Repr

/-- The test `result instanceof Promise` (mantle.ts line 439). -/
def isPromise : JSValue → Bool
  | .promise _ => true
  | _ => false

/-- The test for `typeof v === 'function'`. -/
def isFunctionVal : JSValue → Bool
  | .fn _ _ => true
  | _ => false

-- ───────────────────────────────────────────────────────────────────────
-- Prop Bridge: PROP_VALUES storage, generated accessors, materialization
-- (mantle.ts lines 644-672 and `_makePropsObservable`, lines 363-372)
-- ───────────────────────────────────────────────────────────────────────

/-- The per-instance prop-bridge state: the `PROP_VALUES` slot (`none`
while the storage object has not been lazily created) and the
`PROP_VALUES_OBSERVABLE` flag. The storage object is an assoc list of
prop key to value. -/
structure PropStorageState where
  values : Option (List (String × JSValue))
  observableFlag : Bool
  deriving DecidableEq, Repr

/-- A freshly constructed instance: no storage object, flag unset. -/
def initialPropState : PropStorageState := ⟨none, false⟩

/-- The assignment `storage[key] = value` on the storage object. -/
def setAssoc (l : List (String × JSValue)) (k : String) (v : JSValue) :
    List (String × JSValue) :=
  match l with
  | [] => [(k, v)]
  | (k', v') :: rest => if k' = k then (k, v) :: rest else (k', v') :: setAssoc rest k v

/-- The read `values[key]`, yielding `undefined` for an absent key. -/
def lookupAssoc (l : List (String × JSValue)) (k : String) : JSValue :=
  match l with
  | [] => .undefined
  | (k', v') :: rest => if k' = k then v' else lookupAssoc rest k

/-- The generated prop getter (mantle.ts lines 648-651):
`const values = this[PROP_VALUES]; return values ? values[key] : undefined`. -/
def propGet (s : PropStorageState) (k : String) : JSValue :=
  match s.values with
  | none => .undefined
  | some l => lookupAssoc l k

/-- The generated prop setter (mantle.ts lines 652-668): lazily create
the storage object, then write; the write is wrapped in `runInAction`
exactly when `PROP_VALUES_OBSERVABLE` is set. Returns the new state and
whether the write was transaction-wrapped. -/
def propSet (s : PropStorageState) (k : String) (v : JSValue) :
    PropStorageState × Bool :=
  let storage := s.values.getD []
  ({ values := some (setAssoc storage k v), observableFlag := s.observableFlag },
   s.observableFlag)

/-- Embeds `ViewModel._makePropsObservable` (mantle.ts lines 364-372): if no
storage object exists, return (the flag stays unset); otherwise replace
the plain storage with an observable-wrapped equivalent holding the same
entries and set `PROP_VALUES_OBSERVABLE`. -/
def makePropsObservable (s : PropStorageState) : PropStorageState :=
  match s.values with
  | none => s
  | some l => ⟨some l, true⟩

/-- One externally observable prop-bridge operation. -/
inductive PropOp where
  | write (k : String) (v : JSValue)
  | instrument
  deriving DecidableEq, Repr

/-- Apply one prop-bridge operation. -/
def applyPropOp (s : PropStorageState) (op : PropOp) : PropStorageState :=
  match op with
  | .write k v => (propSet s k v).1
  | .instrument => makePropsObservable s

/-- Run a sequence of prop-bridge operations from a fresh instance. -/
def runPropOps (ops : List PropOp) : PropStorageState :=
  ops.foldl applyPropOp initialPropState

/-- Whether an operation writes prop key `k`. -/
def writesKey (k : String) : PropOp → Bool
  | .write k' _ => k' = k
  | .instrument => false

-- ───────────────────────────────────────────────────────────────────────
-- Error Router (config.ts)
-- ───────────────────────────────────────────────────────────────────────

/-- The `MantleErrorContext` record (config.ts lines 12-19). -/
structure MantleErrorContext where
  phase : String
  name : String
  isBehavior : Bool
  deriving DecidableEq, Repr

/-- The `MantleConfig` record (config.ts lines 24-29), with `none` standing for an
absent key. `onError` holds the identity of the configured handler
function. -/
structure MantleConfig where
  autoObservable : Option Bool
  onError : Option Nat
  deriving DecidableEq, Repr

/-- The initial value of `globalConfig` (config.ts lines 31-33):
`{ autoObservable: true }`, with no `onError` key. -/
def initialGlobalConfig : MantleConfig := ⟨some true, none⟩

/-- One field of `Object.assign(target, source)`: a key present in the
source overwrites; an absent key leaves the target's value. -/
def assignField {α : Type} (old new : Option α) : Option α :=
  match new with
  | some v => some v
  | none => old

/-- Embeds `configure` (config.ts lines 51-53): `Object.assign(globalConfig, config)`,
merging the partial config into the existing global configuration. -/
def configure (g p : MantleConfig) : MantleConfig :=
  ⟨assignField g.autoObservable p.autoObservable, assignField g.onError p.onError⟩

/-- Where a routed error ends up: the configured handler or `console.error`. -/
inductive ErrorSink where
  | handler (id : Nat) (ctx : MantleErrorContext)
  | consoleError (ctx : MantleErrorContext)
  deriving DecidableEq, Repr

/-- Embeds `reportError` (config.ts lines 36-45): dispatch to `globalConfig.onError`
when configured, otherwise log to `console.error`. -/
def reportErrorDispatch (cfg : MantleConfig) (ctx : MantleErrorContext) : ErrorSink :=
  match cfg.onError with
  | some h => .handler h ctx
  | none => .consoleError ctx

-- ───────────────────────────────────────────────────────────────────────
-- Watch Facility (ViewModel.watch, mantle.ts lines 253-291)
-- ───────────────────────────────────────────────────────────────────────

/-- The bookkeeping state behind `ViewModel.watch`: the `_watchDisposers`
array (each mobx reaction disposer identified by a Nat), the set of
reactions whose mobx disposer has been called, and a counter supplying
fresh reaction identities. -/
structure WatchState where
  watchDisposers : List Nat
  stopped : List Nat
  nextId : Nat
  deriving DecidableEq, Repr

/-- Calling a mobx reaction disposer: stops the reaction; mobx disposers
are idempotent, a second call is a no-op. -/
def stopReaction (s : WatchState) (id : Nat) : WatchState :=
  if id ∈ s.stopped then s else { s with stopped := id :: s.stopped }

/-- Embeds `ViewModel.watch` (mantle.ts lines 253-275): create the reaction and
push its disposer onto `_watchDisposers`; returns the new state and the
disposer's identity for the closure handed back to the caller. -/
def watchRegister (s : WatchState) : WatchState × Nat :=
  ({ s with watchDisposers := s.watchDisposers ++ [s.nextId], nextId := s.nextId + 1 },
   s.nextId)

/-- The disposer closure returned by `watch` (mantle.ts lines 277-281):
call the mobx disposer, then `indexOf` + `splice(idx, 1)`, which removes
the first matching entry and does nothing when the entry is absent. -/
def runWatchDisposer (s : WatchState) (id : Nat) : WatchState :=
  let s1 := stopReaction s id
  { s1 with watchDisposers := s1.watchDisposers.erase id }

/-- Mark a list of reactions stopped, in order (idempotently, as mobx
disposers are). -/
def stopAll (stopped ids : List Nat) : List Nat :=
  ids.foldl (fun acc id => if id ∈ acc then acc else id :: acc) stopped

/-- Embeds `ViewModel._disposeWatchers` (mantle.ts lines 285-291): call every
remaining disposer, then truncate the array to length 0. -/
def disposeWatchers (s : WatchState) : WatchState :=
  { watchDisposers := [],
    stopped := stopAll s.stopped s.watchDisposers,
    nextId := s.nextId }

/-- The boundary `watch` wraps around the user callback (mantle.ts lines
262-268): run the callback; a thrown error is caught and routed with
phase `watch`, the owning class name, `isBehavior: false`. The wrapper
itself returns normally in both cases, so nothing is unsubscribed. -/
def watchCallbackBoundary (name : String) (cb : JSValue → Except String Unit)
    (v : JSValue) : List MantleErrorContext :=
  match cb v with
  | .ok _ => []
  | .error _ => [⟨"watch", name, false⟩]

/-- A live watch subscription as mobx holds it: the owning class name and
the user callback. -/
structure WatchSubscription where
  name : String
  cb : JSValue → Except String Unit

/-- One change notification delivered to subscription `i` by the reactive
engine: the wrapped callback runs; the subscription list is left exactly
as it was (the wrapper never unsubscribes). Returns the surviving
subscriptions and the errors routed during delivery. -/
def fireSubscription (subs : List WatchSubscription) (i : Nat) (v : JSValue) :
    List WatchSubscription × List MantleErrorContext :=
  match subs[i]? with
  | none => (subs, [])
  | some sub => (subs, watchCallbackBoundary sub.name sub.cb v)

-- ───────────────────────────────────────────────────────────────────────
-- Instrumentation: BASE_EXCLUDES, _makeAutoObservable, _collectBehaviors,
-- _initMobX (mantle.ts lines 132-148, 294-303, 322-361, 374-433)
-- ───────────────────────────────────────────────────────────────────────

/-- The test `key.startsWith('_')`: the key's first character is an underscore.
(Defined on the character list so that it evaluates inside the kernel.) -/
def startsWithUnderscore (s : String) : Bool :=
  match s.data with
  | [] => false
  | c :: _ => c = '_'

/-- The `BASE_EXCLUDES` set (mantle.ts lines 132-148): base-class members never
given a mobx role. -/
def BASE_EXCLUDES : List String :=
  ["onCreate", "onMount", "onUnmount", "render", "watch", "constructor",
   "_behaviors", "_collectBehaviors", "_mountBehaviors", "_unmountBehaviors",
   "_watchDisposers", "_disposeWatchers", "_mountCleanup", "_initialized",
   "_autoObservable"]

/-- The mobx role `_makeAutoObservable` assigns to a member. -/
inductive MobxRole where
  | observableDeep
  | observableRef
  | computedCell
  | actionBound
  deriving DecidableEq, Repr

/-- An own enumerable field of an instance as `Object.keys(this)` and the
value lookup `(this as any)[key]` see it. -/
structure OwnField where
  key : String
  isFunction : Bool
  isBehaviorValue : Bool
  deriving DecidableEq, Repr

/-- A property descriptor found while walking a prototype object. -/
structure ProtoMember where
  key : String
  isGetter : Bool
  isFunction : Bool
  deriving DecidableEq, Repr

/-- The reflective view of an instance that `_makeAutoObservable` reads:
the union `Object.keys(this) ∪ Object.keys(getPrototypeOf(this))` (each
key paired with the value `(this as any)[key]`), the descriptor tables of
each prototype strictly below `ViewModel.prototype`, and the class's
declared `@property()` keys. -/
structure InstanceShape where
  ownKeys : List OwnField
  protoChain : List (List ProtoMember)
  declaredProps : List String
  deriving DecidableEq, Repr

/-- The test `key in annotations` on the accumulated role map. -/
def hasRole (anns : List (String × MobxRole)) (k : String) : Bool :=
  anns.any (fun p => p.1 = k)

/-- One iteration of the own-keys loop of `_makeAutoObservable`
(mantle.ts lines 387-406): skip `BASE_EXCLUDES`, underscore-prefixed
keys, keys already assigned, declared props, and functions; a behavior
value gets `observable.ref`, anything else `observable`. -/
def addOwnField (declared : List String) (anns : List (String × MobxRole))
    (f : OwnField) : List (String × MobxRole) :=
  if f.key ∈ BASE_EXCLUDES then anns
  else if startsWithUnderscore f.key then anns
  else if hasRole anns f.key then anns
  else if f.key ∈ declared then anns
  else if f.isFunction then anns
  else if f.isBehaviorValue then anns ++ [(f.key, .observableRef)]
  else anns ++ [(f.key, .observableDeep)]

/-- One iteration of the prototype-walk loop of `_makeAutoObservable`
(mantle.ts lines 409-430): same skips; a getter becomes `computed`, a
function `action.bound`. -/
def addProtoMember (declared : List String) (anns : List (String × MobxRole))
    (m : ProtoMember) : List (String × MobxRole) :=
  if m.key ∈ BASE_EXCLUDES then anns
  else if startsWithUnderscore m.key then anns
  else if hasRole anns m.key then anns
  else if m.key ∈ declared then anns
  else if m.isGetter then anns ++ [(m.key, .computedCell)]
  else if m.isFunction then anns ++ [(m.key, .actionBound)]
  else anns

/-- The descriptor table of one prototype, applied in full. -/
def applyProtoTable (declared : List String) (anns : List (String × MobxRole))
    (pm : List ProtoMember) : List (String × MobxRole) :=
  pm.foldl (addProtoMember declared) anns

/-- Embeds `ViewModel._makeAutoObservable` (mantle.ts lines 375-433): collect the
role map over the own keys, then over every prototype below
`ViewModel.prototype`, and hand it to `makeObservable`. -/
def makeAutoObservableRoles (shape : InstanceShape) : List (String × MobxRole) :=
  shape.protoChain.foldl (applyProtoTable shape.declaredProps)
    (shape.ownKeys.foldl (addOwnField shape.declaredProps) [])

/-- One iteration of the `_collectBehaviors` scan (mantle.ts lines
296-302): skip underscore-prefixed keys; push a behavior entry for every
behavior-shaped value. -/
def collectBehaviorsStep (acc : List String) (f : OwnField) : List String :=
  if startsWithUnderscore f.key then acc
  else if f.isBehaviorValue then acc ++ [f.key]
  else acc

/-- Embeds `ViewModel._collectBehaviors` (mantle.ts lines 294-303): scan
`Object.keys(this)`, skipping underscore-prefixed keys, and register every
behavior-shaped value as a behavior entry. -/
def collectBehaviors (ownFields : List OwnField) : List String :=
  ownFields.foldl collectBehaviorsStep []

/-- The per-instance state `_initMobX` touches: the `_initialized` guard,
the `_autoObservable` flag, the prop bridge, and counters recording how
many times behavior collection and observable binding have run. -/
structure VMInitState where
  initialized : Bool
  autoObservableFlag : Option Bool
  props : PropStorageState
  behaviorsCollectedCount : Nat
  observableBindCount : Nat
  deriving DecidableEq, Repr

/-- Embeds `ViewModel._initMobX` (mantle.ts lines 322-361): return at once when
`_initialized` is set; otherwise set the guard, record the mode,
materialize prop storage, collect behaviors, and apply the observable
binding. -/
def initMobX (s : VMInitState) (autoObservable : Bool) : VMInitState :=
  if s.initialized then s
  else
    { initialized := true,
      autoObservableFlag := some autoObservable,
      props := makePropsObservable s.props,
      behaviorsCollectedCount := s.behaviorsCollectedCount + 1,
      observableBindCount := s.observableBindCount + 1 }

-- ───────────────────────────────────────────────────────────────────────
-- Lifecycle Orchestrator (mantle.ts lines 436-469, 569-606)
-- ───────────────────────────────────────────────────────────────────────

/-- The outcome of `ViewModel._callOnMount`: what landed in the
`_mountCleanup` slot, how many `[mantle-lit] ... returned a Promise`
diagnostics were logged, and the errors routed. -/
structure MountOutcome where
  mountCleanup : JSValue
  diagnostics : Nat
  reports : List MantleErrorContext
  deriving DecidableEq, Repr

/-- Embeds `ViewModel._callOnMount` (mantle.ts lines 436-450). `prior` is the
value already in `_mountCleanup`; `onMountResult` is what
`this.onMount?.()` did (`.error` when the hook threw, `.ok .undefined`
when absent or returning nothing). When the hook throws, the error is
routed and the slot is left untouched. When it returns, a Promise result
logs a diagnostic in non-production builds, and the result — whatever it
is — is assigned to `_mountCleanup` (`result as (() => void) | undefined`
is a compile-time cast with no runtime effect). -/
def callOnMount (prior : JSValue) (name : String) (isProduction : Bool)
    (onMountResult : Except String JSValue) : MountOutcome :=
  match onMountResult with
  | .error _ =>
      { mountCleanup := prior, diagnostics := 0,
        reports := [⟨"onMount", name, false⟩] }
  | .ok v =>
      { mountCleanup := v,
        diagnostics := if ¬ isProduction ∧ isPromise v then 1 else 0,
        reports := [] }

/-- The call `this._mountCleanup?.()` (mantle.ts line 455): optional
chaining skips `undefined`; a function value runs (and may throw); any
other value — a Promise in particular — raises a `TypeError`, because it
is not callable. -/
def callCleanup : JSValue → Except String Unit
  | .undefined => .ok ()
  | .fn _ throws => if throws then .error "cleanup threw" else .ok ()
  | _ => .error "TypeError: this._mountCleanup is not a function"

/-- The five unwind steps of the disconnect transition. -/
inductive UnwindStep where
  | stopRenderReaction
  | mountCleanupCall
  | onUnmountHook
  | disposeWatchesStep
  | unmountBehaviorsStep
  deriving DecidableEq, Repr

/-- Everything `disconnectedCallback` consults: the `_mountCleanup` slot,
whether the unmount hook is present and whether it throws, how many watch
subscriptions remain, the behaviors (name, whether their unmount throws),
and the view-model class name. -/
structure DisconnectEnv where
  mountCleanup : JSValue
  hasOnUnmount : Bool
  onUnmountThrows : Bool
  watchCount : Nat
  behaviors : List (String × Bool)
  name : String
  deriving DecidableEq, Repr

/-- The observable outcome of a disconnect: the steps that actually ran,
in order; the errors routed; how many watch subscriptions were disposed;
how many behaviors were unmounted; and the exception, if any, escaping
`disconnectedCallback`. -/
structure DisconnectTrace where
  steps : List UnwindStep
  reports : List MantleErrorContext
  watchesDisposed : Nat
  behaviorsUnmounted : Nat
  escaped : Option String
  deriving DecidableEq, Repr

/-- Modelled from the spec: `unmountBehavior` lives in `src/behavior.ts`,
which is not among the sources; spec §4.4 and the README state that each
behavior's unmount failures are caught and routed independently with
`isBehavior: true`, and that a failing behavior never prevents siblings
or the host from completing the transition. -/
def unmountBehavior (b : String × Bool) : List MantleErrorContext :=
  if b.2 then [⟨"onUnmount", b.1, true⟩] else []

/-- Embeds `ViewModel._callOnUnmount` (mantle.ts lines 453-469): call the mount
cleanup (line 455, outside any try/catch — a throw here escapes at once);
then the unmount hook inside try/catch with routing; then
`_disposeWatchers()`; then `_unmountBehaviors()`. -/
def callOnUnmount (env : DisconnectEnv) : DisconnectTrace :=
  match callCleanup env.mountCleanup with
  | .error e =>
      { steps := [.mountCleanupCall], reports := [],
        watchesDisposed := 0, behaviorsUnmounted := 0, escaped := some e }
  | .ok _ =>
      let hookReports :=
        if env.hasOnUnmount && env.onUnmountThrows then
          [(⟨"onUnmount", env.name, false⟩ : MantleErrorContext)]
        else []
      { steps := [.mountCleanupCall, .onUnmountHook, .disposeWatchesStep,
                  .unmountBehaviorsStep],
        reports := hookReports ++ env.behaviors.flatMap unmountBehavior,
        watchesDisposed := env.watchCount,
        behaviorsUnmounted := env.behaviors.length,
        escaped := none }

/-- Embeds `GeneratedElement.disconnectedCallback` (mantle.ts lines 600-606):
dispose the render autorun (`this._renderDisposer?.()`, a mobx disposer,
which does not throw), then `this._vm._callOnUnmount()`. -/
def disconnectedCallback (env : DisconnectEnv) : DisconnectTrace :=
  let t := callOnUnmount env
  { t with steps := .stopRenderReaction :: t.steps }

-- ───────────────────────────────────────────────────────────────────────
-- connectedCallback and the render reaction (mantle.ts lines 569-598)
-- ───────────────────────────────────────────────────────────────────────

/-- The events of the connect transition. A `renderInvocation true` is a
call of the render function (`this._vm.render!()` or `template!(this._vm)`)
made by the render reaction's own evaluation; `renderInvocation false`
would be a call made by a separate explicit first-render statement in
`connectedCallback`. -/
inductive ConnectEvent where
  | initMobXEv
  | onCreateEv
  | renderInvocation (byReaction : Bool)
  | reactionEstablished
  | mountBehaviorsEv
  | onMountEv
  deriving DecidableEq, Repr

/-- mobx `autorun` (the external reactive primitive, mantle.ts line 584):
establishing an autorun synchronously runs its effect once — here, one
invocation of the render function — before handing back the disposer. -/
def autorunEstablish : List ConnectEvent :=
  [.renderInvocation true, .reactionEstablished]

/-- Embeds `GeneratedElement.connectedCallback` (mantle.ts lines 569-598): create
the render root, `_initMobX`, `onCreate` inside `runInAction` (a throw is
caught and routed), establish the render autorun, mount behaviors, call
`_callOnMount`. There is no explicit first-render statement: the only
initial render is the autorun's establishment run. -/
def connectedCallback (name : String) (onCreateThrows : Bool) :
    List ConnectEvent × List MantleErrorContext :=
  ([.initMobXEv, .onCreateEv] ++ autorunEstablish ++ [.mountBehaviorsEv, .onMountEv],
   if onCreateThrows then [⟨"onCreate", name, false⟩] else [])

/-- Render-function invocations made by the reaction's own evaluation
during connect. -/
def reactionRenderCount (evts : List ConnectEvent) : Nat :=
  evts.countP (fun e => e = .renderInvocation true)

/-- Render-function invocations made by an explicit first-render
statement during connect. -/
def explicitRenderCount (evts : List ConnectEvent) : Nat :=
  evts.countP (fun e => e = .renderInvocation false)

/-- All render-function invocations during connect. -/
def totalRenderCount (evts : List ConnectEvent) : Nat :=
  evts.countP (fun e => e = .renderInvocation true ∨ e = .renderInvocation false)

-- ───────────────────────────────────────────────────────────────────────
-- Helper lemmas: prop bridge
-- ───────────────────────────────────────────────────────────────────────

theorem lookupAssoc_setAssoc_self (l : List (String × JSValue)) (k : String)
    (v : JSValue) : lookupAssoc (setAssoc l k v) k = v := by
  induction l with
  | nil => simp [setAssoc, lookupAssoc]
  | cons hd tl ih =>
      obtain ⟨k', v'⟩ := hd
      by_cases h : k' = k
      · simp [setAssoc, lookupAssoc, h]
      · simp [setAssoc, lookupAssoc, h, ih]

theorem lookupAssoc_setAssoc_ne (l : List (String × JSValue)) (k k' : String)
    (v : JSValue) (h : k' ≠ k) :
    lookupAssoc (setAssoc l k' v) k = lookupAssoc l k := by
  induction l with
  | nil => simp [setAssoc, lookupAssoc, h]
  | cons hd tl ih =>
      obtain ⟨k'', v''⟩ := hd
      by_cases h2 : k'' = k'
      · subst h2
        simp [setAssoc, lookupAssoc, h]
      · by_cases h3 : k'' = k
        · simp [setAssoc, lookupAssoc, h2, h3, Ne.symm h]
        · simp [setAssoc, lookupAssoc, h2, h3, ih]

theorem propGet_propSet_ne (s : PropStorageState) (k k' : String) (v : JSValue)
    (h : k' ≠ k) : propGet (propSet s k' v).1 k = propGet s k := by
  cases hv : s.values with
  | none =>
      simp [propGet, propSet, hv, lookupAssoc_setAssoc_ne _ _ _ _ h, lookupAssoc, h]
  | some l =>
      simp [propGet, propSet, hv, lookupAssoc_setAssoc_ne _ _ _ _ h]

theorem propGet_makePropsObservable (s : PropStorageState) (k : String) :
    propGet (makePropsObservable s) k = propGet s k := by
  cases hv : s.values with
  | none => simp [propGet, makePropsObservable, hv]
  | some l => simp [propGet, makePropsObservable, hv]

theorem propGet_foldl_unwritten (k : String) :
    ∀ (ops : List PropOp) (s : PropStorageState),
      (∀ op ∈ ops, writesKey k op = false) →
      propGet s k = .undefined →
      propGet (ops.foldl applyPropOp s) k = .undefined := by
  intro ops
  induction ops with
  | nil => intro s _ hs; simpa using hs
  | cons op rest ih =>
      intro s h hs
      simp only [List.foldl_cons]
      refine ih _ (fun o ho => h o (List.mem_cons_of_mem _ ho)) ?_
      cases op with
      | instrument =>
          simpa [applyPropOp, propGet_makePropsObservable] using hs
      | write k' v =>
          have hne : k' ≠ k := by
            have := h (.write k' v) (List.mem_cons_self _ _)
            simpa [writesKey] using this
          simpa [applyPropOp, propGet_propSet_ne _ _ _ _ hne] using hs

-- ───────────────────────────────────────────────────────────────────────
-- C4, C5: the Prop Bridge
-- ───────────────────────────────────────────────────────────────────────

/-- C4: writing a declared prop before instrumentation is a plain,
untransacted write; `_makePropsObservable` preserves the stored value
while marking the container observable; reading the prop after connect
returns exactly the value written; and every write after instrumentation
is wrapped in `runInAction`. -/
theorem prop_roundtrip_through_instrumentation (s : PropStorageState)
    (k k' : String) (v v' : JSValue) (hflag : s.observableFlag = false) :
    (propSet s k v).2 = false ∧
    (makePropsObservable (propSet s k v).1).observableFlag = true ∧
    propGet (makePropsObservable (propSet s k v).1) k = v ∧
    (propSet (makePropsObservable (propSet s k v).1) k' v').2 = true := by
  refine ⟨by simp [propSet, hflag], ?_, ?_, ?_⟩
  · simp [propSet, makePropsObservable]
  · simp [propSet, makePropsObservable, propGet, lookupAssoc_setAssoc_self]
  · simp [propSet, makePropsObservable]

/-- Witness for C4 at a concrete instance: a fresh view-model, prop
`title` written to `5` before connect, then a post-connect write. -/
theorem prop_roundtrip_witness :
    initialPropState.observableFlag = false ∧
    ((propSet initialPropState "title" (.num 5)).2 = false ∧
     (makePropsObservable (propSet initialPropState "title" (.num 5)).1).observableFlag = true ∧
     propGet (makePropsObservable (propSet initialPropState "title" (.num 5)).1) "title" = .num 5 ∧
     (propSet (makePropsObservable (propSet initialPropState "title" (.num 5)).1) "items" (.num 7)).2 = true) :=
  ⟨rfl, prop_roundtrip_through_instrumentation initialPropState "title" "items"
    (.num 5) (.num 7) rfl⟩

/-- C5: a declared prop key never written — whatever other prop writes
and instrumentation steps occurred, including none at all, when the
storage container does not yet exist — reads as `undefined`, and the
getter is total (it cannot throw). -/
theorem unset_prop_reads_undefined (ops : List PropOp) (k : String)
    (h : ∀ op ∈ ops, writesKey k op = false) :
    propGet (runPropOps ops) k = JSValue.undefined :=
  propGet_foldl_unwritten k ops initialPropState h rfl

/-- Witness for C5: prop `title` is never written while another prop is
written and the instance is instrumented; `title` reads `undefined`. -/
theorem unset_prop_witness :
    (∀ op ∈ [PropOp.write "items" (.num 1), PropOp.instrument],
      writesKey "title" op = false) ∧
    propGet (runPropOps [PropOp.write "items" (.num 1), PropOp.instrument]) "title"
      = JSValue.undefined :=
  ⟨by decide, unset_prop_reads_undefined _ "title" (by decide)⟩

-- ───────────────────────────────────────────────────────────────────────
-- C6, C7: the Watch Facility
-- ───────────────────────────────────────────────────────────────────────

/-- C6: the disposer returned by `watch` stops the reaction and removes
exactly that subscription's entry from `_watchDisposers` (every other
entry survives), and running the same disposer a second time is a no-op:
the state is left exactly as after the first run. -/
theorem watch_disposer_removes_and_idempotent (s : WatchState) (id j : Nat)
    (hnodup : s.watchDisposers.Nodup) (hj : j ≠ id) :
    id ∈ (runWatchDisposer s id).stopped ∧
    (runWatchDisposer s id).watchDisposers = s.watchDisposers.erase id ∧
    ((j ∈ (runWatchDisposer s id).watchDisposers) ↔ j ∈ s.watchDisposers) ∧
    runWatchDisposer (runWatchDisposer s id) id = runWatchDisposer s id := by
  have hstop : id ∈ (stopReaction s id).stopped := by
    by_cases h : id ∈ s.stopped
    · simp [stopReaction, h]
    · simp [stopReaction, h]
  have hdisp : (runWatchDisposer s id).watchDisposers = s.watchDisposers.erase id := by
    by_cases h : id ∈ s.stopped <;> simp [runWatchDisposer, stopReaction, h]
  refine ⟨?_, hdisp, ?_, ?_⟩
  · by_cases h : id ∈ s.stopped <;> simp [runWatchDisposer, stopReaction, h]
  · rw [hdisp]
    exact List.mem_erase_of_ne hj
  · have hid : id ∉ (runWatchDisposer s id).watchDisposers := by
      rw [hdisp]
      intro hmem
      exact absurd (hnodup.mem_erase_iff.mp hmem).1 (by simp)
    have hstop2 : id ∈ (runWatchDisposer s id).stopped := by
      by_cases h : id ∈ s.stopped <;> simp [runWatchDisposer, stopReaction, h]
    cases hE : runWatchDisposer s id with
    | mk disposers stopped2 nid =>
        have h1 : id ∈ stopped2 := by rw [hE] at hstop2; exact hstop2
        have h2 : id ∉ disposers := by rw [hE] at hid; exact hid
        simp [runWatchDisposer, stopReaction, h1, List.erase_of_not_mem h2]

/-- Witness for C6: two live subscriptions `7`, `9`; disposing `7` stops
it, erases exactly its entry, keeps `9`, and disposing again changes
nothing. -/
theorem watch_disposer_witness :
    ([7, 9] : List Nat).Nodup ∧ (9 : Nat) ≠ 7 ∧
    (7 ∈ (runWatchDisposer ⟨[7, 9], [], 10⟩ 7).stopped ∧
     (runWatchDisposer ⟨[7, 9], [], 10⟩ 7).watchDisposers = ([7, 9] : List Nat).erase 7 ∧
     ((9 ∈ (runWatchDisposer ⟨[7, 9], [], 10⟩ 7).watchDisposers) ↔ 9 ∈ ([7, 9] : List Nat)) ∧
     runWatchDisposer (runWatchDisposer ⟨[7, 9], [], 10⟩ 7) 7
       = runWatchDisposer ⟨[7, 9], [], 10⟩ 7) :=
  ⟨by decide, by decide,
   watch_disposer_removes_and_idempotent ⟨[7, 9], [], 10⟩ 7 9 (by decide) (by decide)⟩

/-- C7: when the watched expression changes and the user callback throws,
the error is caught at the callback boundary and routed with phase
`watch`, the owning class name and `isBehavior: false`; the subscription
list is untouched, and a later change invokes the same callback again. -/
theorem watch_callback_error_routed (subs : List WatchSubscription) (i : Nat)
    (v w : JSValue) (e : String) (sub : WatchSubscription)
    (hsub : subs[i]? = some sub) (herr : sub.cb v = .error e) :
    (fireSubscription subs i v).2 = [⟨"watch", sub.name, false⟩] ∧
    (fireSubscription subs i v).1 = subs ∧
    (fireSubscription (fireSubscription subs i v).1 i w).2
      = watchCallbackBoundary sub.name sub.cb w := by
  refine ⟨?_, ?_, ?_⟩ <;> simp [fireSubscription, hsub, watchCallbackBoundary, herr]

/-- Witness for C7: a single subscription on `TodoView` whose callback
always throws; firing it routes one `watch`-phase error and leaves the
subscription in place. -/
theorem watch_callback_error_witness :
    ([(⟨"TodoView", fun _ => .error "boom"⟩ : WatchSubscription)][0]?
       = some ⟨"TodoView", fun _ => .error "boom"⟩) ∧
    (WatchSubscription.cb ⟨"TodoView", fun _ => .error "boom"⟩ (.num 1)
       = .error "boom") ∧
    ((fireSubscription [⟨"TodoView", fun _ => .error "boom"⟩] 0 (.num 1)).2
       = [⟨"watch", "TodoView", false⟩] ∧
     (fireSubscription [⟨"TodoView", fun _ => .error "boom"⟩] 0 (.num 1)).1
       = [⟨"TodoView", fun _ => .error "boom"⟩] ∧
     (fireSubscription
        (fireSubscription [⟨"TodoView", fun _ => .error "boom"⟩] 0 (.num 1)).1
        0 (.num 2)).2
       = watchCallbackBoundary "TodoView" (fun _ => .error "boom") (.num 2)) :=
  ⟨rfl, rfl,
   watch_callback_error_routed [⟨"TodoView", fun _ => .error "boom"⟩] 0
     (.num 1) (.num 2) "boom" ⟨"TodoView", fun _ => .error "boom"⟩ rfl rfl⟩

-- ───────────────────────────────────────────────────────────────────────
-- C8: _initMobX runs exactly once
-- ───────────────────────────────────────────────────────────────────────

/-- C8: on an uninitialized instance, `_initMobX` materializes prop
storage, collects behaviors and binds observables exactly once, records
the mode, and sets the `_initialized` guard; any later call — whatever
`autoObservable` argument it passes — returns the state unchanged. -/
theorem initMobX_exactly_once (s : VMInitState) (a a' : Bool)
    (h : s.initialized = false) :
    (initMobX s a).initialized = true ∧
    (initMobX s a).autoObservableFlag = some a ∧
    (initMobX s a).props = makePropsObservable s.props ∧
    (initMobX s a).behaviorsCollectedCount = s.behaviorsCollectedCount + 1 ∧
    (initMobX s a).observableBindCount = s.observableBindCount + 1 ∧
    initMobX (initMobX s a) a' = initMobX s a := by
  simp [initMobX, h]

/-- Witness for C8: a fresh instance initialized with `autoObservable`
true, then re-initialized with false; the second call changes nothing. -/
theorem initMobX_witness :
    (⟨false, none, initialPropState, 0, 0⟩ : VMInitState).initialized = false ∧
    ((initMobX ⟨false, none, initialPropState, 0, 0⟩ true).initialized = true ∧
     (initMobX ⟨false, none, initialPropState, 0, 0⟩ true).autoObservableFlag = some true ∧
     (initMobX ⟨false, none, initialPropState, 0, 0⟩ true).props
       = makePropsObservable initialPropState ∧
     (initMobX ⟨false, none, initialPropState, 0, 0⟩ true).behaviorsCollectedCount = 0 + 1 ∧
     (initMobX ⟨false, none, initialPropState, 0, 0⟩ true).observableBindCount = 0 + 1 ∧
     initMobX (initMobX ⟨false, none, initialPropState, 0, 0⟩ true) false
       = initMobX ⟨false, none, initialPropState, 0, 0⟩ true) :=
  ⟨rfl, initMobX_exactly_once ⟨false, none, initialPropState, 0, 0⟩ true false rfl⟩

-- ───────────────────────────────────────────────────────────────────────
-- C9: configure merges into the global configuration
-- ───────────────────────────────────────────────────────────────────────

/-- C9: `configure` merges the passed partial configuration into the
existing global configuration: a key absent from the passed object keeps
its prior value — shown for each key against an arbitrary prior
configuration — and subsequent error reporting dispatches through the
merged configuration exactly as the retained handler dictates. -/
theorem configure_merges_and_reporting (g : MantleConfig) (ao : Option Bool)
    (oe : Option Nat) (ctx : MantleErrorContext) :
    (configure g ⟨ao, none⟩).onError = g.onError ∧
    (configure g ⟨none, oe⟩).autoObservable = g.autoObservable ∧
    reportErrorDispatch (configure g ⟨ao, none⟩) ctx = reportErrorDispatch g ctx := by
  refine ⟨rfl, ?_, ?_⟩
  · simp [configure, assignField]
  · cases h : g.onError <;> simp [configure, assignField, reportErrorDispatch, h]

-- ───────────────────────────────────────────────────────────────────────
-- C10: internal members stay inert
-- ───────────────────────────────────────────────────────────────────────

theorem hasRole_append (anns : List (String × MobxRole)) (k k' : String)
    (r : MobxRole) :
    hasRole (anns ++ [(k', r)]) k = (hasRole anns k || decide (k' = k)) := by
  simp [hasRole, List.any_append]

theorem hasRole_addOwnField (d : List String) (anns : List (String × MobxRole))
    (f : OwnField) (k : String)
    (hk : startsWithUnderscore k = true ∨ k ∈ BASE_EXCLUDES)
    (h : hasRole anns k = false) : hasRole (addOwnField d anns f) k = false := by
  unfold addOwnField
  split
  next => exact h
  next h1 =>
  split
  next => exact h
  next h2 =>
  have hne : f.key ≠ k := by
    intro heq
    rcases hk with hu | he
    · exact h2 (by rw [heq]; exact hu)
    · exact h1 (by rw [heq]; exact he)
  split
  next => exact h
  next =>
  split
  next => exact h
  next =>
  split
  next => exact h
  next =>
  split
  next => simp [hasRole_append, hne, h]
  next => simp [hasRole_append, hne, h]

theorem hasRole_addProtoMember (d : List String) (anns : List (String × MobxRole))
    (m : ProtoMember) (k : String)
    (hk : startsWithUnderscore k = true ∨ k ∈ BASE_EXCLUDES)
    (h : hasRole anns k = false) : hasRole (addProtoMember d anns m) k = false := by
  unfold addProtoMember
  split
  next => exact h
  next h1 =>
  split
  next => exact h
  next h2 =>
  have hne : m.key ≠ k := by
    intro heq
    rcases hk with hu | he
    · exact h2 (by rw [heq]; exact hu)
    · exact h1 (by rw [heq]; exact he)
  split
  next => exact h
  next =>
  split
  next => exact h
  next =>
  split
  next => simp [hasRole_append, hne, h]
  next =>
  split
  next => simp [hasRole_append, hne, h]
  next => exact h

theorem hasRole_foldl_own (d : List String) (k : String)
    (hk : startsWithUnderscore k = true ∨ k ∈ BASE_EXCLUDES) :
    ∀ (l : List OwnField) (anns : List (String × MobxRole)),
      hasRole anns k = false →
      hasRole (l.foldl (addOwnField d) anns) k = false := by
  intro l
  induction l with
  | nil => intro anns h; simpa using h
  | cons f rest ih =>
      intro anns h
      simp only [List.foldl_cons]
      exact ih _ (hasRole_addOwnField d anns f k hk h)

theorem hasRole_foldl_proto (d : List String) (k : String)
    (hk : startsWithUnderscore k = true ∨ k ∈ BASE_EXCLUDES) :
    ∀ (chain : List (List ProtoMember)) (anns : List (String × MobxRole)),
      hasRole anns k = false →
      hasRole (chain.foldl (applyProtoTable d) anns) k = false := by
  intro chain
  induction chain with
  | nil => intro anns h; simpa using h
  | cons pm rest ih =>
      intro anns h
      simp only [List.foldl_cons]
      refine ih _ ?_
      unfold applyProtoTable
      induction pm generalizing anns with
      | nil => simpa using h
      | cons m mrest mih =>
          simp only [List.foldl_cons]
          exact mih _ (hasRole_addProtoMember d anns m k hk h)

theorem collectBehaviors_foldl_no_underscore (ku : String)
    (hku : startsWithUnderscore ku = true) :
    ∀ (fields : List OwnField) (acc : List String),
      ku ∉ acc → ku ∉ fields.foldl collectBehaviorsStep acc := by
  intro fields
  induction fields with
  | nil => intro acc h; simpa using h
  | cons f rest ih =>
      intro acc h
      simp only [List.foldl_cons]
      refine ih _ ?_
      unfold collectBehaviorsStep
      split
      next => exact h
      next h1 =>
      split
      next =>
          intro hmem
          rcases List.mem_append.mp hmem with hl | hr
          · exact h hl
          · have hke : ku = f.key := by simpa using hr
            exact h1 (by rw [← hke]; exact hku)
      next => exact h

/-- C10: auto-observable instrumentation assigns no mobx role to any
member whose name starts with an underscore or that appears in
`BASE_EXCLUDES` — whatever the instance's fields, prototype chain and
declared props are — and behavior discovery never registers an
underscore-prefixed field, even when its value is behavior-shaped. -/
theorem internal_members_stay_inert (shape : InstanceShape)
    (fields : List OwnField) (k ku : String)
    (hk : startsWithUnderscore k = true ∨ k ∈ BASE_EXCLUDES)
    (hku : startsWithUnderscore ku = true) :
    hasRole (makeAutoObservableRoles shape) k = false ∧
    ku ∉ collectBehaviors fields := by
  constructor
  · unfold makeAutoObservableRoles
    exact hasRole_foldl_proto shape.declaredProps k hk shape.protoChain _
      (hasRole_foldl_own shape.declaredProps k hk shape.ownKeys [] rfl)
  · exact collectBehaviors_foldl_no_underscore ku hku fields [] (by simp)

/-- Witness for C10 on a concrete shape: an instance with the
underscore-prefixed field `_cache`, a behavior-shaped `_hidden` field,
ordinary members, and a subclass shadowing `onMount`; neither `_cache`
nor `onMount` gets a role, and `_hidden` is not discovered as a
behavior. -/
theorem internal_members_witness :
    ((startsWithUnderscore "onMount" = true) ∨ "onMount" ∈ BASE_EXCLUDES) ∧
    (startsWithUnderscore "_hidden" = true) ∧
    (hasRole
       (makeAutoObservableRoles
         ⟨[⟨"count", false, false⟩, ⟨"_cache", false, false⟩,
           ⟨"onMount", true, false⟩, ⟨"_hidden", false, true⟩],
          [[⟨"total", true, false⟩, ⟨"increment", false, true⟩,
            ⟨"onMount", false, true⟩]],
          ["title"]⟩)
       "onMount" = false ∧
     "_hidden" ∉ collectBehaviors
       [⟨"count", false, false⟩, ⟨"_cache", false, false⟩,
        ⟨"onMount", true, false⟩, ⟨"_hidden", false, true⟩]) :=
  ⟨Or.inr (by decide), by decide,
   internal_members_stay_inert
     ⟨[⟨"count", false, false⟩, ⟨"_cache", false, false⟩,
       ⟨"onMount", true, false⟩, ⟨"_hidden", false, true⟩],
      [[⟨"total", true, false⟩, ⟨"increment", false, true⟩,
        ⟨"onMount", false, true⟩]],
      ["title"]⟩
     [⟨"count", false, false⟩, ⟨"_cache", false, false⟩,
      ⟨"onMount", true, false⟩, ⟨"_hidden", false, true⟩]
     "onMount" "_hidden" (Or.inr (by decide)) (by decide)⟩

-- ───────────────────────────────────────────────────────────────────────
-- C1: an async onMount — the Promise is stored, not discarded
-- ───────────────────────────────────────────────────────────────────────

/-- C1: evaluating `_callOnMount` on a host whose `onMount` returns a
Promise. In a non-production build the diagnostic is logged once, but in
a production build it is not; and in both builds the Promise is assigned
to `_mountCleanup` (the `as (() => void) | undefined` cast at mantle.ts
line 446 has no runtime effect), so the slot does hold a value, and the
`this._mountCleanup?.()` call on disconnect throws a `TypeError` instead
of invoking no teardown. -/
theorem onMount_promise_stored_not_discarded :
    (callOnMount .undefined "AsyncView" false (.ok (.promise 0))).mountCleanup
      = .promise 0 ∧
    ¬ (callOnMount .undefined "AsyncView" false (.ok (.promise 0))).mountCleanup
      = .undefined ∧
    (callOnMount .undefined "AsyncView" false (.ok (.promise 0))).diagnostics = 1 ∧
    (callOnMount .undefined "AsyncView" true (.ok (.promise 0))).diagnostics = 0 ∧
    callCleanup (.promise 0)
      = .error "TypeError: this._mountCleanup is not a function" :=
  ⟨rfl, by decide, rfl, rfl, rfl⟩

-- ───────────────────────────────────────────────────────────────────────
-- C2: the disconnect unwind order and its failure isolation
-- ───────────────────────────────────────────────────────────────────────

/-- C2 counterexample: a host whose captured teardown callback throws.
`disconnectedCallback` stops the render reaction and calls the teardown,
but the throw escapes `_callOnUnmount` (mantle.ts line 455 sits outside
any try/catch): the unmount hook never runs, none of the two remaining
watch subscriptions is disposed, and the behavior is never unmounted —
refuting the claim that a throwing teardown callback prevents no later
step. -/
theorem disconnect_throwing_teardown_aborts_unwind :
    (disconnectedCallback ⟨.fn 0 true, true, false, 2, [("SizeBehavior", false)], "TodoView"⟩).steps
      = [.stopRenderReaction, .mountCleanupCall] ∧
    UnwindStep.onUnmountHook
      ∉ (disconnectedCallback ⟨.fn 0 true, true, false, 2, [("SizeBehavior", false)], "TodoView"⟩).steps ∧
    (disconnectedCallback ⟨.fn 0 true, true, false, 2, [("SizeBehavior", false)], "TodoView"⟩).watchesDisposed = 0 ∧
    (disconnectedCallback ⟨.fn 0 true, true, false, 2, [("SizeBehavior", false)], "TodoView"⟩).behaviorsUnmounted = 0 ∧
    (disconnectedCallback ⟨.fn 0 true, true, false, 2, [("SizeBehavior", false)], "TodoView"⟩).escaped
      = some "cleanup threw" := by
  decide

/-- C2 amended: whenever the captured teardown callback returns normally
(it is absent, or a function that does not throw), disconnect runs all
five unwind steps in the fixed order — stop render reaction, teardown
callback, unmount hook, dispose watches, unmount behaviors — and a throw
in the unmount hook or in any behavior's unmount is caught and routed
(the hook with `isBehavior: false`, each behavior independently with
`isBehavior: true`) without preventing any later step; a throw in the
teardown callback itself, however, escapes and aborts the remaining
steps. -/
theorem disconnect_fixed_order_when_teardown_returns (env : DisconnectEnv)
    (h : callCleanup env.mountCleanup = .ok ()) :
    (disconnectedCallback env).steps
      = [.stopRenderReaction, .mountCleanupCall, .onUnmountHook,
         .disposeWatchesStep, .unmountBehaviorsStep] ∧
    (disconnectedCallback env).watchesDisposed = env.watchCount ∧
    (disconnectedCallback env).behaviorsUnmounted = env.behaviors.length ∧
    (disconnectedCallback env).escaped = none ∧
    (disconnectedCallback env).reports
      = (if env.hasOnUnmount && env.onUnmountThrows then
           [(⟨"onUnmount", env.name, false⟩ : MantleErrorContext)]
         else [])
        ++ env.behaviors.flatMap unmountBehavior := by
  simp [disconnectedCallback, callOnUnmount, h]

/-- Witness for C2 amended: a non-throwing teardown, a throwing unmount
hook, three watch subscriptions, one throwing and one healthy behavior:
all five steps run, both failures are routed, nothing escapes. -/
theorem disconnect_fixed_order_witness :
    callCleanup (JSValue.fn 1 false) = .ok () ∧
    ((disconnectedCallback ⟨.fn 1 false, true, true, 3, [("FetchBehavior", true), ("SizeBehavior", false)], "TodoView"⟩).steps
       = [.stopRenderReaction, .mountCleanupCall, .onUnmountHook,
          .disposeWatchesStep, .unmountBehaviorsStep] ∧
     (disconnectedCallback ⟨.fn 1 false, true, true, 3, [("FetchBehavior", true), ("SizeBehavior", false)], "TodoView"⟩).watchesDisposed = 3 ∧
     (disconnectedCallback ⟨.fn 1 false, true, true, 3, [("FetchBehavior", true), ("SizeBehavior", false)], "TodoView"⟩).behaviorsUnmounted
       = ([("FetchBehavior", true), ("SizeBehavior", false)] : List (String × Bool)).length ∧
     (disconnectedCallback ⟨.fn 1 false, true, true, 3, [("FetchBehavior", true), ("SizeBehavior", false)], "TodoView"⟩).escaped = none ∧
     (disconnectedCallback ⟨.fn 1 false, true, true, 3, [("FetchBehavior", true), ("SizeBehavior", false)], "TodoView"⟩).reports
       = (if true && true then [(⟨"onUnmount", "TodoView", false⟩ : MantleErrorContext)] else [])
         ++ ([("FetchBehavior", true), ("SizeBehavior", false)] : List (String × Bool)).flatMap unmountBehavior) :=
  ⟨rfl,
   disconnect_fixed_order_when_teardown_returns
     ⟨.fn 1 false, true, true, 3, [("FetchBehavior", true), ("SizeBehavior", false)], "TodoView"⟩
     rfl⟩

-- ───────────────────────────────────────────────────────────────────────
-- C3: the render reaction's establishment is the first render
-- ───────────────────────────────────────────────────────────────────────

/-- C3 counterexample: on a concrete connect, the render reaction's own
establishment (`autorun`) invokes the render function — once, not zero
times — and no explicit first-render call exists; so the claim that
establishment does not invoke the render function and that the first
render comes from a separate explicit call is false. -/
theorem connect_reaction_fires_on_establishment :
    ¬ (reactionRenderCount (connectedCallback "CounterView" false).1 = 0 ∧
       explicitRenderCount (connectedCallback "CounterView" false).1 ≥ 1) ∧
    reactionRenderCount (connectedCallback "CounterView" false).1 = 1 ∧
    explicitRenderCount (connectedCallback "CounterView" false).1 = 0 := by
  decide

/-- C3 amended: for every host, establishing the render reaction during
connect synchronously invokes the render function exactly once — the
autorun's own initial evaluation — there is no separate explicit
first-render call, and connect causes exactly one initial render in
total, not two. -/
theorem connect_single_initial_render (name : String) (onCreateThrows : Bool) :
    reactionRenderCount (connectedCallback name onCreateThrows).1 = 1 ∧
    explicitRenderCount (connectedCallback name onCreateThrows).1 = 0 ∧
    totalRenderCount (connectedCallback name onCreateThrows).1 = 1 := by
  refine ⟨?_, ?_, ?_⟩ <;>
    simp [connectedCallback, autorunEstablish, reactionRenderCount,
      explicitRenderCount, totalRenderCount, List.countP_cons, List.countP_append]

end Mantle
